import Mathlib

/-!
Verification of the irontrade Alpaca broker adapter.

Shallow embedding of the two source files:
  * `src/convert.rs` — the pure conversion layer between the broker-native
    (apca crate) data model and the internal (irontrade crate) data model.
  * `src/client.rs` — the adapter client: request construction and
    response/error plumbing around an external broker session.

Modelling conventions:
  * `num_decimal::Num` (arbitrary-precision decimal) is modelled as `Rat`;
    every conversion in the source copies these values verbatim, so only
    equality matters.
  * Strings (symbols, ids) are modelled as `String`.  `order.id.to_string()`
    and `position.symbol.to_string()` are Display calls on external types;
    ids are therefore modelled already in their stringified form and the
    copies are verbatim.
  * Rust panics (`todo!()`) are modelled by the explicit `PanicOr` result
    type: `PanicOr.panicked` marks a control path that aborts by panicking,
    as distinct from returning an error value.
  * The broker session is an external collaborator; a client operation is
    modelled as a function of the session's result (`Except BrokerError _`),
    with `BrokerError` the session's error type, which per the spec
    distinguishes a resource-not-found error from other failures.
-/

/-- Result of a conversion whose Rust source can execute a panicking macro
(`todo!()`): either a value, or a panic.  A panic is an abort, not an error
return. -/
inductive PanicOr (α : Type) where
  | ok (a : α)
  | panicked
  deriving DecidableEq, Repr

/-! ## Broker-native (apca) data model, as used by the source -/

/-- `apca::api::v2::order::Amount`: tagged union of a share quantity or a
notional currency value. -/
inductive ApcaAmount where
  | quantity (quantity : Rat)
  | notional (notional : Rat)
  deriving DecidableEq, Repr

/-- `apca::api::v2::order::Status`: the broker's order-status enumeration.
The source matches four variants and has a default arm for all others. -/
inductive ApcaOrderStatus where
  | new
  | replaced
  | partiallyFilled
  | filled
  | doneForDay
  | canceled
  | expired
  | accepted
  | pendingCancel
  | pendingReplace
  | pendingNew
  | acceptedForBidding
  | stopped
  | rejected
  | suspended
  | calculated
  | held
  | unknown
  deriving DecidableEq, Repr

/-- `apca::api::v2::order::Type`: the broker's order-type enumeration. -/
inductive ApcaType where
  | market
  | limit
  | stop
  | stopLimit
  | trailingStop
  deriving DecidableEq, Repr

/-- `apca::api::v2::order::Side`. -/
inductive ApcaSide where
  | buy
  | sell
  deriving DecidableEq, Repr

/-- `apca::api::v2::order::TimeInForce`.  The broker default is `day`. -/
inductive ApcaTimeInForce where
  | day
  | untilCanceled
  | untilMarketOpen
  | untilMarketClose
  | fillOrKill
  | immediateOrCancel
  deriving DecidableEq, Repr

/-- `apca::api::v2::order::Class` (order class); the broker default is
`simple`. -/
inductive ApcaClass where
  | simple
  | bracket
  | oco
  | oto
  deriving DecidableEq, Repr

/-- `apca::api::v2::position::Position`, restricted to the fields the
source reads (`symbol`, `average_entry_price`, `quantity`,
`market_value`); its remaining fields are never touched by the adapter. -/
structure ApcaPosition where
  symbol : String
  average_entry_price : Rat
  quantity : Rat
  market_value : Rat
  deriving DecidableEq, Repr

/-- `apca::api::v2::order::Order`, restricted to the fields the source
reads.  `id` is kept in its stringified form (the source calls
`id.to_string()`). -/
structure ApcaOrder where
  id : String
  symbol : String
  amount : ApcaAmount
  filled_quantity : Rat
  average_fill_price : Option Rat
  status : ApcaOrderStatus
  type_ : ApcaType
  deriving DecidableEq, Repr

/-- `apca::api::v2::orders::Status`: the status filter of an order-list
request. -/
inductive OrdersStatusFilter where
  | open
  | closed
  | all
  deriving DecidableEq, Repr

/-- `apca::api::v2::orders::ListReq`, restricted to the fields relevant
here; defaults mirror `ListReq::default()`. -/
structure ListReq where
  status : OrdersStatusFilter := OrdersStatusFilter.open
  limit : Option Nat := none
  symbols : List String := []
  deriving DecidableEq, Repr

/-- The session's error type.  Per the spec the underlying session raises
"a distinguishable error for resource not found (used for open-position
absence) versus generic failures". -/
inductive BrokerError where
  | notFound
  | transport
  deriving DecidableEq, Repr

/-! ## Internal (irontrade) data model, as used by the source -/

/-- `irontrade::api::common::Amount`. -/
inductive IronAmount where
  | quantity (quantity : Rat)
  | notional (notional : Rat)
  deriving DecidableEq, Repr

/-- `irontrade::api::response::OrderStatus`. -/
inductive IronOrderStatus where
  | new
  | partiallyFilled
  | filled
  | expired
  | unimplemented
  deriving DecidableEq, Repr

/-- `irontrade::api::response::OrderType`. -/
inductive IronOrderType where
  | market
  | limit
  deriving DecidableEq, Repr

/-- `irontrade::api::common::OrderSide`. -/
inductive OrderSide where
  | buy
  | sell
  deriving DecidableEq, Repr

/-- `irontrade::api::response::OpenPosition`. -/
structure IronOpenPosition where
  asset_symbol : String
  average_entry_price : Option Rat
  quantity : Rat
  market_value : Rat
  deriving DecidableEq, Repr

/-- `irontrade::api::response::Order`. -/
structure IronOrder where
  order_id : String
  asset_symbol : String
  filled_quantity : Rat
  amount : IronAmount
  average_fill_price : Option Rat
  status : IronOrderStatus
  type_ : IronOrderType
  deriving DecidableEq, Repr

/-- `irontrade::api::request::OrderRequest`.  `asset_pair` is kept in its
stringified form (the source calls `asset_pair.to_string()`). -/
structure OrderRequest where
  asset_pair : String
  amount : IronAmount
  side : OrderSide
  limit_price : Option Rat
  deriving DecidableEq, Repr

/-- `irontrade::api::response::OrderResponse`. -/
structure OrderResponse where
  order_id : String
  deriving DecidableEq, Repr

/-- `irontrade::api::response::GetOrdersResponse`. -/
structure GetOrdersResponse where
  orders : List IronOrder
  deriving DecidableEq, Repr

/-- `irontrade::api::response::GetOpenPositionResponse`. -/
structure GetOpenPositionResponse where
  open_position : IronOpenPosition
  deriving DecidableEq, Repr

/-! ## Conversion layer (`src/convert.rs`) -/

/-- `impl From<ApcaAmount> for Amount` (convert.rs): structural relabelling
of the broker amount into the internal amount. -/
def amountFromApca : ApcaAmount → IronAmount
  | ApcaAmount.quantity q => IronAmount.quantity q
  | ApcaAmount.notional n => IronAmount.notional n

/-- `impl From<Amount> for ApcaAmount` (convert.rs): structural relabelling
of the internal amount into the broker amount. -/
def amountToApca : IronAmount → ApcaAmount
  | IronAmount.quantity q => ApcaAmount.quantity q
  | IronAmount.notional n => ApcaAmount.notional n

/-- `impl From<Position> for OpenPosition` (convert.rs): direct field
mapping; the average entry price is wrapped in `Some`. -/
def positionFromApca (position : ApcaPosition) : IronOpenPosition :=
  { asset_symbol := position.symbol
    average_entry_price := some position.average_entry_price
    quantity := position.quantity
    market_value := position.market_value }

/-- `impl From<ApcaOrderStatus> for OrderStatus` (convert.rs): four named
arms and a default arm mapping everything else to `unimplemented`. -/
def orderStatusFromApca : ApcaOrderStatus → IronOrderStatus
  | ApcaOrderStatus.new => IronOrderStatus.new
  | ApcaOrderStatus.partiallyFilled => IronOrderStatus.partiallyFilled
  | ApcaOrderStatus.filled => IronOrderStatus.filled
  | ApcaOrderStatus.expired => IronOrderStatus.expired
  | _ => IronOrderStatus.unimplemented

/-- `impl From<Type> for OrderType` (convert.rs): `Market` and `Limit` map
to the identically-named internal variants; every other arm executes the
`todo!()` macro, which panics. -/
def orderTypeFromApca : ApcaType → PanicOr IronOrderType
  | ApcaType.market => PanicOr.ok IronOrderType.market
  | ApcaType.limit => PanicOr.ok IronOrderType.limit
  | _ => PanicOr.panicked

/-- `impl From<ApcaOrder> for Order` (convert.rs): composes the amount,
status and type conversions with direct field copies.  A panic in the type
conversion aborts the whole order conversion. -/
def orderFromApca (order : ApcaOrder) : PanicOr IronOrder :=
  match orderTypeFromApca order.type_ with
  | PanicOr.panicked => PanicOr.panicked
  | PanicOr.ok t =>
      PanicOr.ok
        { order_id := order.id
          asset_symbol := order.symbol
          filled_quantity := order.filled_quantity
          amount := amountFromApca order.amount
          average_fill_price := order.average_fill_price
          status := orderStatusFromApca order.status
          type_ := t }

/-! ## Adapter client (`src/client.rs`) -/

/-- The side match at the top of `place_order` (client.rs): internal side
to broker side, a closed two-arm match. -/
def sideToApca : OrderSide → ApcaSide
  | OrderSide.buy => ApcaSide.buy
  | OrderSide.sell => ApcaSide.sell

/-- The broker-native create-order request: `CreateReqInit` plus the
symbol, side and amount supplied to `.init(...)`.  Field defaults mirror
`CreateReqInit::default()` (the `class_` field is Rust `class`, renamed
because `class` is a Lean keyword). -/
structure CreateReq where
  symbol : String
  side : ApcaSide
  amount : ApcaAmount
  class_ : ApcaClass := ApcaClass.simple
  type_ : ApcaType := ApcaType.market
  time_in_force : ApcaTimeInForce := ApcaTimeInForce.day
  limit_price : Option Rat := none
  stop_price : Option Rat := none
  trail_price : Option Rat := none
  trail_percent : Option Rat := none
  take_profit : Option Rat := none
  stop_loss : Option Rat := none
  extended_hours : Bool := false
  client_order_id : Option String := none
  deriving DecidableEq, Repr

/-- The request construction inside `place_order` (client.rs): side from
the closed match, type `Limit` iff a limit price is present else `Market`,
fixed time-in-force `UntilCanceled`, the converted amount, and
`..Default::default()` for every other `CreateReqInit` field (left at
their structure defaults here). -/
def buildCreateRequest (req : OrderRequest) : CreateReq :=
  { symbol := req.asset_pair
    side := sideToApca req.side
    amount := amountToApca req.amount
    type_ := if req.limit_price.isSome then ApcaType.limit else ApcaType.market
    time_in_force := ApcaTimeInForce.untilCanceled
    limit_price := req.limit_price }

/-- The order-list request built by `get_orders` (client.rs): `ListReq`
with `status: Status::All` and `..Default::default()`. -/
def getOrdersListReq : ListReq :=
  { status := OrdersStatusFilter.all }

/-- Conversion of the broker's order list inside `get_orders` (client.rs):
each order is converted in turn; a panic in any conversion aborts the
whole call. -/
def ordersFromApca : List ApcaOrder → PanicOr (List IronOrder)
  | [] => PanicOr.ok []
  | o :: rest =>
      match orderFromApca o, ordersFromApca rest with
      | PanicOr.ok io, PanicOr.ok rest' => PanicOr.ok (io :: rest')
      | _, _ => PanicOr.panicked

/-- `get_orders` (client.rs), as a function of the order list returned by
the session for the `getOrdersListReq` request: converts each order and
wraps the list in the response structure. -/
def get_orders (sessionOrders : List ApcaOrder) : PanicOr GetOrdersResponse :=
  match ordersFromApca sessionOrders with
  | PanicOr.ok orders => PanicOr.ok { orders := orders }
  | PanicOr.panicked => PanicOr.panicked

/-- `get_open_position` (client.rs), as a function of the queried symbol
and of the session's result for the position lookup: a session error is
propagated unmodified by the `?` operator; a position is converted and
wrapped.  The queried symbol only parametrises the external request. -/
def get_open_position (asset_symbol : String)
    (sessionResult : Except BrokerError ApcaPosition) :
    Except BrokerError GetOpenPositionResponse :=
  match sessionResult with
  | Except.error e => Except.error e
  | Except.ok p => Except.ok { open_position := positionFromApca p }

/-! ## Sample values used by witnesses -/

/-- A concrete limit-order request (limit price present). -/
def reqLimitSample : OrderRequest :=
  { asset_pair := "BTC/USD"
    amount := IronAmount.notional 20
    side := OrderSide.buy
    limit_price := some 100 }

/-- A concrete market-order request (no limit price). -/
def reqMarketSample : OrderRequest :=
  { asset_pair := "BTC/USD"
    amount := IronAmount.notional 20
    side := OrderSide.buy
    limit_price := none }

/-- A concrete broker order. -/
def sampleApcaOrder : ApcaOrder :=
  { id := "42"
    symbol := "BTCUSD"
    amount := ApcaAmount.notional 20
    filled_quantity := 0
    average_fill_price := none
    status := ApcaOrderStatus.new
    type_ := ApcaType.market }

/-- The internal order the conversion layer produces from
`sampleApcaOrder`. -/
def sampleIronOrder : IronOrder :=
  { order_id := "42"
    asset_symbol := "BTCUSD"
    filled_quantity := 0
    amount := IronAmount.notional 20
    average_fill_price := none
    status := IronOrderStatus.new
    type_ := IronOrderType.market }

/-! ## Helper lemmas -/

/-- Soundness of the list conversion in `get_orders`: a successful
conversion of the whole list converts the orders elementwise, in order. -/
theorem ordersFromApca_sound (l : List ApcaOrder) :
    ∀ os : List IronOrder, ordersFromApca l = PanicOr.ok os →
      List.Forall₂ (fun bo io => orderFromApca bo = PanicOr.ok io) l os := by
  induction l with
  | nil =>
      intro os h
      simp only [ordersFromApca] at h
      injection h with h'
      rw [← h']
      exact List.Forall₂.nil
  | cons o rest ih =>
      intro os h
      simp only [ordersFromApca] at h
      cases ho : orderFromApca o with
      | panicked => rw [ho] at h; cases h
      | ok io =>
          cases hr : ordersFromApca rest with
          | panicked => rw [ho, hr] at h; cases h
          | ok rest' =>
              rw [ho, hr] at h
              injection h with h'
              rw [← h']
              exact List.Forall₂.cons ho (ih rest' hr)

/-! ## Claim theorems -/

/-- Claim C1 (code bug): the order-type conversion maps `Market` and
`Limit` to the identically-named internal variants, but on every other
broker order type it executes `todo!()` and panics — it does not fail by
returning an error, contradicting the claim (and the spec's stated
intent of documented fail-fast behaviour instead of unreachable code). -/
theorem c1_order_type_todo_panics :
    orderTypeFromApca ApcaType.market = PanicOr.ok IronOrderType.market
    ∧ orderTypeFromApca ApcaType.limit = PanicOr.ok IronOrderType.limit
    ∧ orderTypeFromApca ApcaType.stop = PanicOr.panicked
    ∧ orderTypeFromApca ApcaType.stopLimit = PanicOr.panicked
    ∧ orderTypeFromApca ApcaType.trailingStop = PanicOr.panicked := by
  decide

/-- Claim C2 (counterexample): `get_open_position` performs no inspection
or reclassification of the broker error — the not-found error and the
transport error are both returned verbatim by the `?` propagation, in the
same error class, refuting the claimed reclassification mechanism. -/
theorem c2_counterexample_no_reclassification :
    get_open_position "AAPL" (Except.error BrokerError.notFound)
      = Except.error BrokerError.notFound
    ∧ get_open_position "AAPL" (Except.error BrokerError.transport)
      = Except.error BrokerError.transport :=
  ⟨rfl, rfl⟩

/-- Claim C2 (amended): `get_open_position` propagates every session error
unmodified; the not-found case is distinguishable by callers only because
the session's own error type already distinguishes it, not through any
inspection or reclassification by the adapter. -/
theorem c2_error_passthrough :
    ∀ (sym : String) (e : BrokerError),
      get_open_position sym (Except.error e) = Except.error e :=
  fun _ _ => rfl

/-- Claim C3: the amount conversions are mutually inverse structural
relabellings preserving the Quantity/Notional tag and the numeric value
exactly, in both directions, for every amount. -/
theorem c3_amount_round_trip :
    (∀ a : IronAmount, amountFromApca (amountToApca a) = a)
    ∧ (∀ b : ApcaAmount, amountToApca (amountFromApca b) = b)
    ∧ (∀ q : Rat, amountFromApca (ApcaAmount.quantity q) = IronAmount.quantity q
        ∧ amountToApca (IronAmount.quantity q) = ApcaAmount.quantity q)
    ∧ (∀ n : Rat, amountFromApca (ApcaAmount.notional n) = IronAmount.notional n
        ∧ amountToApca (IronAmount.notional n) = ApcaAmount.notional n) := by
  refine ⟨fun a => ?_, fun b => ?_, fun q => ⟨rfl, rfl⟩, fun n => ⟨rfl, rfl⟩⟩
  · cases a <;> rfl
  · cases b <;> rfl

/-- Claim C4: the status conversion is total — the four known broker
statuses map to the identically-named internal statuses, and every other
broker status maps to `unimplemented`. -/
theorem c4_status_totality :
    orderStatusFromApca ApcaOrderStatus.new = IronOrderStatus.new
    ∧ orderStatusFromApca ApcaOrderStatus.partiallyFilled
        = IronOrderStatus.partiallyFilled
    ∧ orderStatusFromApca ApcaOrderStatus.filled = IronOrderStatus.filled
    ∧ orderStatusFromApca ApcaOrderStatus.expired = IronOrderStatus.expired
    ∧ ∀ s : ApcaOrderStatus,
        s ≠ ApcaOrderStatus.new → s ≠ ApcaOrderStatus.partiallyFilled →
        s ≠ ApcaOrderStatus.filled → s ≠ ApcaOrderStatus.expired →
        orderStatusFromApca s = IronOrderStatus.unimplemented := by
  refine ⟨rfl, rfl, rfl, rfl, fun s h1 h2 h3 h4 => ?_⟩
  cases s <;> first
    | rfl
    | exact absurd rfl h1
    | exact absurd rfl h2
    | exact absurd rfl h3
    | exact absurd rfl h4

/-- Witness for C4: the unrecognized status `canceled` maps to
`unimplemented`. -/
theorem c4_status_totality_witness :
    orderStatusFromApca ApcaOrderStatus.canceled = IronOrderStatus.unimplemented :=
  c4_status_totality.2.2.2.2 ApcaOrderStatus.canceled
    (by decide) (by decide) (by decide) (by decide)

/-- Claim C5: the create-order request built by `place_order` always
carries time-in-force `UntilCanceled`; it is a Limit order carrying
exactly the given limit price when one is present, and a Market order
with no limit price otherwise. -/
theorem c5_type_derivation :
    ∀ req : OrderRequest,
      (buildCreateRequest req).time_in_force = ApcaTimeInForce.untilCanceled
      ∧ (∀ x : Rat, req.limit_price = some x →
          (buildCreateRequest req).type_ = ApcaType.limit
          ∧ (buildCreateRequest req).limit_price = some x)
      ∧ (req.limit_price = none →
          (buildCreateRequest req).type_ = ApcaType.market
          ∧ (buildCreateRequest req).limit_price = none) := by
  intro req
  refine ⟨rfl, fun x hx => ⟨?_, ?_⟩, fun hx => ⟨?_, ?_⟩⟩
  · simp [buildCreateRequest, hx]
  · simp [buildCreateRequest, hx]
  · simp [buildCreateRequest, hx]
  · simp [buildCreateRequest, hx]

/-- Witness for C5: a concrete limit request yields a Limit-typed request
with price 100, and a concrete market request yields a Market-typed
request with no price. -/
theorem c5_type_derivation_witness :
    ((buildCreateRequest reqLimitSample).type_ = ApcaType.limit
      ∧ (buildCreateRequest reqLimitSample).limit_price = some 100)
    ∧ ((buildCreateRequest reqMarketSample).type_ = ApcaType.market
      ∧ (buildCreateRequest reqMarketSample).limit_price = none) :=
  ⟨(c5_type_derivation reqLimitSample).2.1 100 rfl,
   (c5_type_derivation reqMarketSample).2.2 rfl⟩

/-- Claim C6: `get_orders` requests the list for all statuses, returns an
empty list (not an error) for an account with zero orders, and converts
each broker order through the conversion layer preserving the broker's
ordering. -/
theorem c6_get_orders_all_statuses :
    getOrdersListReq.status = OrdersStatusFilter.all
    ∧ get_orders [] = PanicOr.ok { orders := [] }
    ∧ ∀ (l : List ApcaOrder) (res : GetOrdersResponse),
        get_orders l = PanicOr.ok res →
        List.Forall₂ (fun bo io => orderFromApca bo = PanicOr.ok io) l res.orders := by
  refine ⟨rfl, rfl, fun l res h => ?_⟩
  simp only [get_orders] at h
  cases hl : ordersFromApca l with
  | panicked => rw [hl] at h; cases h
  | ok os =>
      rw [hl] at h
      injection h with h'
      rw [← h']
      exact ordersFromApca_sound l os hl

/-- Witness for C6: a concrete one-order list is converted elementwise. -/
theorem c6_get_orders_witness :
    List.Forall₂ (fun bo io => orderFromApca bo = PanicOr.ok io)
      [sampleApcaOrder] [sampleIronOrder] :=
  c6_get_orders_all_statuses.2.2 [sampleApcaOrder] { orders := [sampleIronOrder] } rfl

/-- Claim C7: the side mapping is the closed bijection Buy to Buy and
Sell to Sell; it is injective (so no two internal sides share a broker
side) and total over the two-value enumerations with no other mapping. -/
theorem c7_side_bijection :
    sideToApca OrderSide.buy = ApcaSide.buy
    ∧ sideToApca OrderSide.sell = ApcaSide.sell
    ∧ ∀ s t : OrderSide, (sideToApca s = sideToApca t ↔ s = t) := by
  refine ⟨rfl, rfl, fun s t => ?_⟩
  cases s <;> cases t <;> simp [sideToApca]

/-- Claim C8: the position conversion is the direct field mapping whose
average entry price is always wrapped as present, with symbol, quantity
and market value copied unmodified. -/
theorem c8_position_field_mapping :
    ∀ p : ApcaPosition,
      positionFromApca p =
        { asset_symbol := p.symbol
          average_entry_price := some p.average_entry_price
          quantity := p.quantity
          market_value := p.market_value } :=
  fun _ => rfl

/-- Claim C9: in the create-order request built by `place_order`, every
field other than symbol, side, amount, order type, time-in-force and
limit price keeps its `Default::default()` value, whatever the incoming
request. -/
theorem c9_create_request_frame :
    ∀ req : OrderRequest,
      (buildCreateRequest req).class_ = ApcaClass.simple
      ∧ (buildCreateRequest req).stop_price = none
      ∧ (buildCreateRequest req).trail_price = none
      ∧ (buildCreateRequest req).trail_percent = none
      ∧ (buildCreateRequest req).take_profit = none
      ∧ (buildCreateRequest req).stop_loss = none
      ∧ (buildCreateRequest req).extended_hours = false
      ∧ (buildCreateRequest req).client_order_id = none :=
  fun _ => ⟨rfl, rfl, rfl, rfl, rfl, rfl, rfl, rfl⟩

/-- Claim C10: `get_open_position` returns the broker-reported symbol
verbatim as `asset_symbol` regardless of the queried symbol, the order
conversion copies the broker symbol and stringified id verbatim, and the
returned `asset_symbol` can differ textually from the queried symbol. -/
theorem c10_verbatim_symbols :
    (∀ (sym : String) (p : ApcaPosition),
        get_open_position sym (Except.ok p)
          = Except.ok { open_position := positionFromApca p }
        ∧ (positionFromApca p).asset_symbol = p.symbol)
    ∧ (∀ (o : ApcaOrder) (io : IronOrder), orderFromApca o = PanicOr.ok io →
        io.asset_symbol = o.symbol ∧ io.order_id = o.id)
    ∧ (∃ (sym : String) (p : ApcaPosition),
        get_open_position sym (Except.ok p)
          = Except.ok { open_position := positionFromApca p }
        ∧ (positionFromApca p).asset_symbol ≠ sym) := by
  refine ⟨fun sym p => ⟨rfl, rfl⟩, fun o io h => ?_, ?_⟩
  · simp only [orderFromApca] at h
    cases ht : orderTypeFromApca o.type_ with
    | panicked => rw [ht] at h; cases h
    | ok t =>
        rw [ht] at h
        injection h with h'
        rw [← h']
        exact ⟨rfl, rfl⟩
  · exact ⟨"BTC/USD",
      { symbol := "BTCUSD", average_entry_price := 1, quantity := 1, market_value := 1 },
      rfl, by decide⟩

/-- Witness for C10: the concrete broker order converts with its symbol
and id copied verbatim. -/
theorem c10_verbatim_symbols_witness :
    sampleIronOrder.asset_symbol = sampleApcaOrder.symbol
    ∧ sampleIronOrder.order_id = sampleApcaOrder.id :=
  c10_verbatim_symbols.2.1 sampleApcaOrder sampleIronOrder rfl
